import Mathlib

/-!
Verification of the UK Drilling Safety Assistant dashboard
(src/uk_drilling_safety_assistant.py) against its natural-language
specification.

Part 1 embeds the code that is present in the source file: the hardcoded
per-panel hazard tables, the aggregated GenAI Forecast table, the
Fault-Risk column of simulate_seismic, the bit-wear normalization of
simulate_bit_wear, and the local response logic of the Ask a Query tab.

Part 2 models, from the specification, the HazardLedger component
(record / snapshot / renderSummaryText and the advisory-request flow).
That component is described by the specification as belonging to other
variants of this repository; it does not appear in the one source file
provided, so it is modelled from the words of the specification.
-/

/-- One row of a hazard table: columns Issue, Operational Hazard,
Employee Safety Risk, Severity and Mitigation Step of the
pandas DataFrames built in the source. -/
structure HazardRow where
  issue : String
  operationalHazard : String
  safetyRisk : String
  severity : String
  mitigation : String
deriving DecidableEq, Repr

/-- Hazard table of tab1, Real-Time Drilling View
(src lines 141-150, variable drilling_view_table). -/
def drilling_view_table_tab1 : List HazardRow :=
  [⟨"Torque/ROP Drift", "Poor hole cleaning, stuck pipe",
    "Unexpected pipe trip, injury risk", "🟡",
    "Optimize cleaning schedule, monitor cuttings"⟩,
   ⟨"High Vibration", "Fatigue of BHA, component failure",
    "Tool detachment, flying debris", "🔴",
    "Use vibration dampeners, monitor downhole sensors"⟩]

/-- Hazard table of tab3, Auto Parameter Tuning
(src lines 185-194, rebinding the variable drilling_view_table with
exactly the same rows as tab1). -/
def drilling_view_table_tab3 : List HazardRow :=
  [⟨"Torque/ROP Drift", "Poor hole cleaning, stuck pipe",
    "Unexpected pipe trip, injury risk", "🟡",
    "Optimize cleaning schedule, monitor cuttings"⟩,
   ⟨"High Vibration", "Fatigue of BHA, component failure",
    "Tool detachment, flying debris", "🔴",
    "Use vibration dampeners, monitor downhole sensors"⟩]

/-- Hazard table of tab2, Bit Wear Monitoring (src lines 161-170). -/
def bit_wear_table : List HazardRow :=
  [⟨"High Bit Wear", "Bit failure during drilling",
    "Flying metal, hand/facial injury", "🔴",
    "Replace bit before 85% wear, monitor wear sensors"⟩,
   ⟨"Overpull Events", "Tripping snapback or pipe over-tension",
    "Whiplash or dropped objects", "🟡",
    "Use controlled tripping speeds, monitor pipe tension"⟩]

/-- Hazard table of tab4, Safety and Risk Prediction (src lines 209-215). -/
def perf_table : List HazardRow :=
  [⟨"Excessive Downtime", "Missed production target, crew overwork",
    "Fatigue-induced accidents", "🟡",
    "Shift rotation & real-time performance monitoring"⟩]

/-- Hazard table of tab5, Logs and Lithology Viewer (src lines 225-234). -/
def logs_table : List HazardRow :=
  [⟨"Abnormal GR/NPHI Logs", "Formation collapse or lost circulation",
    "Confined space hazard, trapped tools", "🔴",
    "Set casing early, monitor logs closely"⟩,
   ⟨"Shale Instability", "Sloughing or swelling shale",
    "Rig instability or personnel fall-in", "🟡",
    "Use appropriate mud weight and stabilizers"⟩]

/-- Hazard table of tab6, Seismic Interpreter (src lines 246-255). -/
def seismic_table : List HazardRow :=
  [⟨"Seismic Fault Zone", "Casing collapse, formation influx",
    "Explosion, toxic gas exposure", "🔴",
    "Adjust mud weight, run seismic pre-checks"⟩,
   ⟨"Pressure Contrast Zones", "Formation instability, kick risk",
    "Evacuation hazard, rig shutdown", "🔴",
    "Install pressure sensors, monitor influx rates"⟩]

/-- Hazard table of tab8, the second Safety and Risk Prediction panel
(src lines 285-294, variable hazard_table). -/
def hazard_table : List HazardRow :=
  [⟨"Floor Slips", "Crew injury on wet floor",
    "Bone fractures, downtime", "🔴",
    "Anti-slip flooring, real-time moisture alerts"⟩,
   ⟨"Mechanical Thread Failures", "Tool seizure or damaged strings",
    "Unexpected tripping & falling equipment", "🟡",
    "Inspect threads, apply calibrated torque"⟩]

/-- Aggregated hazard table of tab9, GenAI Forecast (src lines 302-338). -/
def forecast_table : List HazardRow :=
  [⟨"High Bit Wear", "Bit failure during drilling",
    "Flying metal, hand/facial injury", "🔴",
    "Replace bit before 85% wear, monitor wear sensors"⟩,
   ⟨"Overpull Events", "Tripping snapback or pipe over-tension",
    "Whiplash or dropped objects", "🟡",
    "Use controlled tripping speeds, monitor pipe tension"⟩,
   ⟨"Abnormal GR/NPHI Logs", "Formation collapse or lost circulation",
    "Confined space hazard, trapped tools", "🔴",
    "Set casing early, monitor logs closely"⟩,
   ⟨"Shale Instability", "Sloughing or swelling shale",
    "Rig instability or personnel fall-in", "🟡",
    "Use appropriate mud weight and stabilizers"⟩,
   ⟨"Torque/ROP Drift", "Poor hole cleaning, stuck pipe",
    "Unexpected pipe trip, injury risk", "🟡",
    "Optimize cleaning schedule, monitor cuttings"⟩,
   ⟨"High Vibration", "Fatigue of BHA, component failure",
    "Tool detachment, flying debris", "🔴",
    "Use vibration dampeners, monitor downhole sensors"⟩,
   ⟨"Seismic Fault Zone", "Casing collapse, formation influx",
    "Explosion, toxic gas exposure", "🔴",
    "Adjust mud weight, run seismic pre-checks"⟩,
   ⟨"Pressure Contrast Zones", "Formation instability, kick risk",
    "Evacuation hazard, rig shutdown", "🔴",
    "Install pressure sensors, monitor influx rates"⟩,
   ⟨"Excessive Downtime", "Missed production target, crew overwork",
    "Fatigue-induced accidents", "🟡",
    "Shift rotation & real-time performance monitoring"⟩,
   ⟨"Floor Slips", "Crew injury on wet floor",
    "Bone fractures, downtime", "🔴",
    "Anti-slip flooring, real-time moisture alerts"⟩,
   ⟨"Mechanical Thread Failures", "Tool seizure or damaged strings",
    "Unexpected tripping & falling equipment", "🟡",
    "Inspect threads, apply calibrated torque"⟩]

/-- The per-panel hazard tables, in tab order (tab7 shows no hazard table
and tab9 is the aggregate, so neither is listed). -/
def panel_hazard_tables : List (List HazardRow) :=
  [drilling_view_table_tab1, bit_wear_table, drilling_view_table_tab3,
   perf_table, logs_table, seismic_table, hazard_table]

/-- The three colored risk markers of the source, green, yellow and red
(src line 17, variable risk_levels). -/
def risk_levels : List String := ["🟢", "🟡", "🔴"]

/-- The Fault Risk column of simulate_seismic (src lines 8-24).
random.choices draws 30 elements of the population risk_levels; the draw
is modelled by an arbitrary selection function pick. -/
def simulate_seismic_fault_risk (pick : Fin 30 → Fin 3) : List String :=
  (List.finRange 30).map
    (fun k => risk_levels.get (Fin.cast (show 3 = risk_levels.length from rfl) (pick k)))

/-- Cumulative wear of simulate_bit_wear (src lines 68-72): entry i of
np.cumsum is the sum of the first i + 1 random increments. The 60
increments, drawn by np.random.uniform from the interval 0.5 to 1.5, are
modelled by an arbitrary function inc; floating point is modelled by
exact rational arithmetic. -/
def wearRaw (inc : Fin 60 → ℚ) (i : Fin 60) : ℚ :=
  ∑ j ∈ Finset.Iic i, inc j

/-- max(wear) over the cumulative array, the divisor of the normalization
in simulate_bit_wear (src line 71). -/
def maxWear (inc : Fin 60 → ℚ) : ℚ :=
  Finset.univ.sup' Finset.univ_nonempty (wearRaw inc)

/-- The Bit Wear percentage column returned by simulate_bit_wear
(src line 71): wear divided by its maximum, times 100. -/
def bitWearPct (inc : Fin 60 → ℚ) (i : Fin 60) : ℚ :=
  wearRaw inc i / maxWear inc * 100

/-- Whether the character list pat occurs at the start of the list s. -/
def charsStartWith : List Char → List Char → Bool
  | _, [] => true
  | [], _ :: _ => false
  | c :: cs, p :: ps => c = p && charsStartWith cs ps

/-- Whether the character list pat occurs contiguously anywhere in s. -/
def charsHasSub (pat : List Char) : List Char → Bool
  | [] => pat.isEmpty
  | c :: rest => charsStartWith (c :: rest) pat || charsHasSub pat rest

/-- The Python membership test of tab10 (src line 353):
the word safe occurring in query.lower(). -/
def queryMentionsSafe (query : String) : Bool :=
  charsHasSub "safe".data (query.data.map Char.toLower)

/-- The canned safety summary displayed by tab10 for queries that mention
the word safe (src lines 354-367, variable safety_summary). -/
def safety_summary : String :=
  "\nBased on current operational data:\n\n- 🛠️ Real-Time Drilling View shows hazards like Torque/ROP Drift (🟡) and High Vibration (🔴)\n- 🔧 Auto Parameter Tuning reports High Bit Wear (🔴)\n- 🔥 Safety & Risk Prediction highlights Blowout risk (🔴) and Overpressure zones (🟡)\n\nWhile most risks are being mitigated, the presence of multiple 🔴 high-severity hazards suggests that employee safety is at **elevated risk**.\n\n✅ Recommended Actions:\n• Reinforce rig crew briefing\n• Monitor vibration and pressure sensors\n• Schedule preventative checks immediately\n"

/-- A single quote character, used around the echoed query in tab10. -/
def quoteMark : String := String.singleton (Char.ofNat 39)

/-- The simulated answer template of tab10 for all other queries
(src lines 370-372), an f-string echoing the query between quotes. -/
def simulatedAnswer (query : String) : String :=
  "This is a simulated GenAI answer to your question: " ++ quoteMark ++ query
    ++ quoteMark ++ "\n\n• Please ensure operations comply with HSE standards."

/-- The GenAI Response text displayed by tab10, Ask a Query, once a query
has been entered (src lines 351-372). The branch is on the membership
test of the word safe in the lowercased query; both branches are local
string constants of the program, no external service is consulted. -/
def askQueryResponse (query : String) : String :=
  if queryMentionsSafe query then safety_summary else simulatedAnswer query

/-- Modelled from the spec: a HazardObservation, section 3 of the
specification. The severity field is carried as a string so that
out-of-enumeration values can be presented to record and rejected there,
as section 8 scenario 2 requires. The HazardLedger component itself is
absent from the provided source file, so it and the operations below are
modelled from the specification text. -/
structure HazardObservation where
  issue : String
  operationalHazard : String
  safetyRisk : String
  severity : String
  mitigation : String
  panelSource : String
deriving DecidableEq, Repr

/-- Modelled from the spec: the ordered severity enumeration Low, Medium,
High of section 3. -/
def validSeverities : List String := ["Low", "Medium", "High"]

/-- Modelled from the spec: the ValidationError of section 7, naming the
missing or invalid field of the rejected observation. -/
inductive ValidationError where
  | emptyIssue : ValidationError
  | invalidSeverity : String → ValidationError
deriving DecidableEq, Repr

/-- Modelled from the spec: HazardLedger.record of section 4.1. The
ledger is the plain sequence of observations; on a valid observation the
result is the ledger with the observation appended at the end, with no
deduplication; on an empty issue or an out-of-enumeration severity the
result is the ValidationError naming the offending field. -/
def record (ledger : List HazardObservation) (o : HazardObservation) :
    Except ValidationError (List HazardObservation) :=
  if o.issue = "" then
    Except.error ValidationError.emptyIssue
  else if o.severity ∈ validSeverities then
    Except.ok (ledger ++ [o])
  else
    Except.error (ValidationError.invalidSeverity o.severity)

/-- Modelled from the spec: the ledger state after a call to record; a
failed record leaves the ledger unchanged (section 7, validation
failures are rejected without storing). -/
def recordState (ledger : List HazardObservation) (o : HazardObservation) :
    List HazardObservation :=
  match record ledger o with
  | Except.ok ledgerNext => ledgerNext
  | Except.error _ => ledger

/-- Modelled from the spec: HazardLedger.snapshot of section 4.1, first N
entries in insertion order when a limit is given, the full sequence
otherwise; never fails. -/
def snapshot (ledger : List HazardObservation) (limit : Option Nat) :
    List HazardObservation :=
  match limit with
  | none => ledger
  | some n => ledger.take n

/-- Modelled from the spec: one line of renderSummaryText, section 4.1. -/
def renderSummaryLine (o : HazardObservation) : String :=
  o.issue ++ " (" ++ o.severity ++ ") — " ++ o.operationalHazard ++ " / "
    ++ o.safetyRisk

/-- Modelled from the spec: renderSummaryText of section 4.1, one line
per observation, the empty string on the empty input. -/
def renderSummaryText (observations : List HazardObservation) : String :=
  String.intercalate "\n" (observations.map renderSummaryLine)

/-- Modelled from the spec: the AdvisoryCollaboratorError of section 7,
carrying the message of the failed chat-completion call. -/
structure AdvisoryCollaboratorError where
  message : String
deriving DecidableEq, Repr

/-- Modelled from the spec: the prompt of the summary request, section 6:
the rendered snapshot beneath a fixed instructional preamble and the
free-text question of the user. The exact preamble wording is not given
by the specification, so it stays a parameter. -/
def buildPrompt (preamble question : String)
    (ledger : List HazardObservation) : String :=
  preamble ++ "\n" ++ question ++ "\n"
    ++ renderSummaryText (snapshot ledger none)

/-- Modelled from the spec: the summary-request flow of sections 6 and 7.
The advisory collaborator is a black box turning the prompt into either
generated text or an AdvisoryCollaboratorError; the flow makes exactly
one call, surfaces its outcome unchanged (no retry, no swallowing), and
only reads the ledger. The returned pair is the ledger as the flow
leaves it together with the surfaced outcome. -/
def summaryRequestFlow
    (oracle : String → Except AdvisoryCollaboratorError String)
    (preamble question : String) (ledger : List HazardObservation) :
    List HazardObservation × Except AdvisoryCollaboratorError String :=
  match oracle (buildPrompt preamble question ledger) with
  | Except.ok text => (ledger, Except.ok text)
  | Except.error e => (ledger, Except.error e)

/-- A concrete valid observation, the first of end-to-end scenario 1 of
section 8 of the specification. -/
def obsTorqueDrift : HazardObservation :=
  ⟨"Torque Drift", "Poor hole cleaning", "Pipe trip injury", "Medium",
   "Optimize cleaning", "drilling-view"⟩

/-- A concrete valid observation, the second of end-to-end scenario 1. -/
def obsHighBitWear : HazardObservation :=
  ⟨"High Bit Wear", "Bit failure", "Flying metal", "High",
   "Replace bit early", "bit-wear"⟩

/-- A concrete invalid observation: severity Critical is outside the
enumeration, as in end-to-end scenario 2 of section 8. -/
def obsCritical : HazardObservation :=
  ⟨"Gas Leak", "Uncontrolled release", "Toxic exposure", "Critical",
   "Shut in well", "safety-panel"⟩

/-- A concrete always-failing advisory collaborator, as in end-to-end
scenario 3 of section 8: every call raises a connectivity error. -/
def failingOracle : String → Except AdvisoryCollaboratorError String :=
  fun _ => Except.error ⟨"connection refused"⟩

/-- The constant increment sequence used to instantiate the bit-wear
model on a concrete input. -/
def constIncrements : Fin 60 → ℚ := fun _ => 1


/-- C7 (counterexample): two panels, Real-Time Drilling View (tab1) and
Auto Parameter Tuning (tab3), emit a hazard row labelled Torque/ROP
Drift, yet the aggregated forecast table of tab9 contains that issue
label exactly once, not once per emitting panel. -/
theorem forecast_not_once_per_panel :
    (panel_hazard_tables.countP
        (fun t => t.any (fun r => decide (r.issue = "Torque/ROP Drift")))) = 2 ∧
    (forecast_table.countP (fun r => decide (r.issue = "Torque/ROP Drift"))) = 1 := by
  decide

/-- C7 (amended): the duplication lives only in the per-panel tables:
their concatenation carries Torque/ROP Drift and High Vibration twice
each (once from tab1, once from tab3), while the hand-written aggregated
forecast table lists every issue label exactly once. -/
theorem forecast_issue_labels_unique :
    ((panel_hazard_tables.flatten).countP
        (fun r => decide (r.issue = "Torque/ROP Drift"))) = 2 ∧
    ((panel_hazard_tables.flatten).countP
        (fun r => decide (r.issue = "High Vibration"))) = 2 ∧
    (forecast_table.countP (fun r => decide (r.issue = "Torque/ROP Drift"))) = 1 ∧
    (forecast_table.countP (fun r => decide (r.issue = "High Vibration"))) = 1 ∧
    (forecast_table.all (fun r =>
        decide ((forecast_table.countP (fun q => decide (q.issue = r.issue))) = 1))) = true := by
  decide

/-- C8: the aggregated GenAI Forecast table is exactly the merge of the
per-panel hazard tables: every row displayed by any panel occurs in the
forecast table with identical Issue, Operational Hazard, Employee Safety
Risk, Severity and Mitigation Step values, and every forecast row bears
an issue label emitted by some panel. -/
theorem forecast_table_is_merge_of_panels :
    ((panel_hazard_tables.flatten).all
        (fun r => forecast_table.any (fun q => decide (q = r)))) = true ∧
    (forecast_table.all
        (fun r => (panel_hazard_tables.flatten).any
          (fun q => decide (q.issue = r.issue)))) = true := by
  decide

lemma marker_any_of_mem {s : String} (hs : s ∈ risk_levels) :
    (risk_levels.any (fun m => decide (m = s))) = true := by
  rw [List.any_eq_true]
  exact ⟨s, hs, by simp⟩

/-- C9: every Severity entry of every panel hazard table and of the
forecast table, and every Fault Risk value that simulate_seismic can
produce, is one of the three colored markers green, yellow, red; no
free-form values occur. -/
theorem severity_values_in_marker_enumeration :
    ((panel_hazard_tables.flatten ++ forecast_table).all
        (fun r => risk_levels.any (fun m => decide (m = r.severity)))) = true ∧
    ∀ (pick : Fin 30 → Fin 3),
      ((simulate_seismic_fault_risk pick).all
        (fun s => risk_levels.any (fun m => decide (m = s)))) = true := by
  refine ⟨by decide, ?_⟩
  intro pick
  rw [List.all_eq_true]
  intro s hs
  simp only [simulate_seismic_fault_risk, List.mem_map] at hs
  obtain ⟨k, _, rfl⟩ := hs
  exact marker_any_of_mem (List.get_mem _ _ _)

/-- C1 (counterexample): the Ask a Query response is not the text
returned by an external chat-completion collaborator: there is a
collaborator behavior (an oracle from prompts to texts) whose output on
every possible prompt differs from the response the program displays for
the query hello, because that response is a fixed local string. -/
theorem ask_query_response_not_from_collaborator :
    ¬ ∀ (oracle : String → String),
        ∃ prompt, askQueryResponse "hello" = oracle prompt := by
  intro h
  obtain ⟨p, hp⟩ := h (fun _ => askQueryResponse "hello" ++ "x")
  have hlen := congrArg String.length hp
  rw [String.length_append] at hlen
  have hx : ("x" : String).length = 1 := rfl
  rw [hx] at hlen
  omega

/-- C1 (amended): the Ask a Query response is computed locally as a
function of the query alone: a query whose lowercased text contains the
word safe receives the canned safety summary, every other query receives
the simulated-answer template echoing the query; no snapshot, summary
rendering or external advisory call occurs in the source. -/
theorem ask_query_response_computed_locally (query : String) :
    (queryMentionsSafe query = true →
        askQueryResponse query = safety_summary) ∧
    (queryMentionsSafe query = false →
        askQueryResponse query = simulatedAnswer query) := by
  constructor
  · intro h
    simp [askQueryResponse, h]
  · intro h
    simp [askQueryResponse, h]

/-- C1 (witness): the branch mapping evaluated on both branches: the
query hello does not mention the word safe and receives the echoing
template, the query Is it safe mentions it and receives the canned
safety summary. -/
theorem ask_query_response_computed_locally_witness :
    (queryMentionsSafe "hello" = false ∧
     askQueryResponse "hello" = simulatedAnswer "hello") ∧
    (queryMentionsSafe "Is it safe" = true ∧
     askQueryResponse "Is it safe" = safety_summary) :=
  ⟨⟨by decide, (ask_query_response_computed_locally "hello").2 (by decide)⟩,
   ⟨by decide, (ask_query_response_computed_locally "Is it safe").1 (by decide)⟩⟩

/-- C2 (counterexample): on a ledger that already holds the observation,
recording the same valid observation again leaves it present twice, not
exactly once: record performs no deduplication, so the claim fails for
ledger states already containing the observation. -/
theorem record_duplicate_observation :
    obsHighBitWear.issue ≠ "" ∧
    obsHighBitWear.severity ∈ validSeverities ∧
    recordState [obsHighBitWear] obsHighBitWear = [obsHighBitWear, obsHighBitWear] ∧
    (snapshot (recordState [obsHighBitWear] obsHighBitWear) none).count obsHighBitWear ≠ 1 := by
  refine ⟨by decide, by decide, by rfl, by decide⟩

/-- C2 (amended): for every valid observation and every ledger state,
record appends the observation at the end: the snapshot afterwards is
the prior sequence followed by the new observation, no existing entry is
removed or reordered, the occurrence count of the observation rises by
exactly one (so it occurs exactly once when it was not already present),
and the final position holds the new observation. -/
theorem record_appends_in_order (L : List HazardObservation)
    (o : HazardObservation) (h1 : o.issue ≠ "")
    (h2 : o.severity ∈ validSeverities) :
    record L o = Except.ok (L ++ [o]) ∧
    recordState L o = L ++ [o] ∧
    snapshot (recordState L o) none = L ++ [o] ∧
    (recordState L o).count o = L.count o + 1 ∧
    (recordState L o).getLast? = some o := by
  have hr : record L o = Except.ok (L ++ [o]) := by
    simp [record, h1, h2]
  have hs : recordState L o = L ++ [o] := by
    simp [recordState, hr]
  refine ⟨hr, hs, ?_, ?_, ?_⟩
  · simp [snapshot, hs]
  · rw [hs, List.count_append]
    simp [List.count_singleton]
  · rw [hs]
    exact List.getLast?_concat L

/-- C2 (witness): the amended append property evaluated on the empty
ledger and the Torque Drift observation of scenario 1. -/
theorem record_appends_in_order_witness :
    obsTorqueDrift.issue ≠ "" ∧ obsTorqueDrift.severity ∈ validSeverities ∧
    (record [] obsTorqueDrift = Except.ok ([] ++ [obsTorqueDrift]) ∧
     recordState [] obsTorqueDrift = [] ++ [obsTorqueDrift] ∧
     snapshot (recordState [] obsTorqueDrift) none = [] ++ [obsTorqueDrift] ∧
     (recordState [] obsTorqueDrift).count obsTorqueDrift
        = ([] : List HazardObservation).count obsTorqueDrift + 1 ∧
     (recordState [] obsTorqueDrift).getLast? = some obsTorqueDrift) :=
  ⟨by decide, by decide,
   record_appends_in_order [] obsTorqueDrift (by decide) (by decide)⟩

/-- C3: record called with an empty issue or an out-of-enumeration
severity fails with the ValidationError naming the offending field, the
observation is never stored, and the ledger keeps its length and
contents. -/
theorem record_invalid_rejected (L : List HazardObservation)
    (o : HazardObservation)
    (h : o.issue = "" ∨ o.severity ∉ validSeverities) :
    (∃ e : ValidationError, record L o = Except.error e) ∧
    (o.issue = "" → record L o = Except.error ValidationError.emptyIssue) ∧
    (o.issue ≠ "" →
      record L o = Except.error (ValidationError.invalidSeverity o.severity)) ∧
    recordState L o = L ∧
    (recordState L o).length = L.length := by
  by_cases hi : o.issue = ""
  · have hr : record L o = Except.error ValidationError.emptyIssue := by
      simp [record, hi]
    exact ⟨⟨_, hr⟩, fun _ => hr, fun hni => absurd hi hni,
      by simp [recordState, hr], by simp [recordState, hr]⟩
  · have hsev : o.severity ∉ validSeverities := h.resolve_left hi
    have hr : record L o
        = Except.error (ValidationError.invalidSeverity o.severity) := by
      simp [record, hi, hsev]
    exact ⟨⟨_, hr⟩, fun he => absurd he hi, fun _ => hr,
      by simp [recordState, hr], by simp [recordState, hr]⟩

/-- C3 (witness): scenario 2 of the specification: recording the
severity Critical observation on the empty ledger fails with the
ValidationError naming the severity, and the ledger length stays 0. -/
theorem record_invalid_rejected_witness :
    (obsCritical.issue = "" ∨ obsCritical.severity ∉ validSeverities) ∧
    ((∃ e : ValidationError, record [] obsCritical = Except.error e) ∧
     (obsCritical.issue = "" →
        record [] obsCritical = Except.error ValidationError.emptyIssue) ∧
     (obsCritical.issue ≠ "" →
        record [] obsCritical
          = Except.error (ValidationError.invalidSeverity obsCritical.severity)) ∧
     recordState [] obsCritical = [] ∧
     (recordState [] obsCritical).length = ([] : List HazardObservation).length) :=
  ⟨by decide, record_invalid_rejected [] obsCritical (by decide)⟩

/-- C4: snapshot with limit N on a ledger of size M returns exactly
min N M entries, those entries are the oldest-first initial segment of
the insertion order, snapshot without a limit returns the full sequence,
snapshot of the empty ledger is empty, and snapshot is idempotent. -/
theorem snapshot_min_oldest_first (L : List HazardObservation) (N : Nat) :
    (snapshot L (some N)).length = min N L.length ∧
    snapshot L (some N) = L.take N ∧
    snapshot L (some N) <+: L ∧
    snapshot L none = L ∧
    snapshot ([] : List HazardObservation) (some N) = [] ∧
    snapshot (snapshot L (some N)) (some N) = snapshot L (some N) := by
  refine ⟨?_, rfl, ⟨L.drop N, List.take_append_drop N L⟩, rfl,
    by simp [snapshot], ?_⟩
  · simp [snapshot, List.length_take]
  · simp [snapshot, List.take_take]

/-- C5: renderSummaryText is a pure total function: the rendered lines
are one per observation, each line starts with the literal issue of its
observation followed by the parenthesized severity, the operational
hazard and the safety risk in the documented form, and the empty list
renders to the empty string. -/
theorem renderSummaryText_line_structure
    (observations : List HazardObservation) :
    renderSummaryText [] = "" ∧
    (observations.map renderSummaryLine).length = observations.length ∧
    renderSummaryText observations
      = String.intercalate "\n" (observations.map renderSummaryLine) ∧
    ∀ o ∈ observations,
      renderSummaryLine o
        = o.issue ++ (" (" ++ o.severity ++ ") — " ++ o.operationalHazard
            ++ " / " ++ o.safetyRisk) ∧
      ∃ a b, renderSummaryLine o = a ++ o.severity ++ b := by
  refine ⟨rfl, by simp, rfl, ?_⟩
  intro o _
  constructor
  · simp [renderSummaryLine, String.append_assoc]
  · exact ⟨o.issue ++ " (",
      ") — " ++ o.operationalHazard ++ " / " ++ o.safetyRisk,
      by simp [renderSummaryLine, String.append_assoc]⟩

/-- C5 (witness): the line structure evaluated on the Torque Drift
observation inside the two-observation list of scenario 1. -/
theorem renderSummaryText_line_structure_witness :
    obsTorqueDrift ∈ [obsTorqueDrift, obsHighBitWear] ∧
    (renderSummaryLine obsTorqueDrift
        = obsTorqueDrift.issue ++ (" (" ++ obsTorqueDrift.severity ++ ") — "
            ++ obsTorqueDrift.operationalHazard ++ " / "
            ++ obsTorqueDrift.safetyRisk) ∧
     ∃ a b, renderSummaryLine obsTorqueDrift
        = a ++ obsTorqueDrift.severity ++ b) :=
  ⟨by decide,
   (renderSummaryText_line_structure [obsTorqueDrift, obsHighBitWear]).2.2.2
      obsTorqueDrift (by decide)⟩

/-- C6: when the advisory collaborator call fails, the summary-request
flow surfaces exactly that AdvisoryCollaboratorError as its outcome (no
retry with a different result, no silent swallowing), and the ledger is
unaffected: the flow leaves the ledger identical and it stays queryable
with its prior contents. -/
theorem advisory_failure_surfaced
    (oracle : String → Except AdvisoryCollaboratorError String)
    (preamble question : String) (L : List HazardObservation)
    (e : AdvisoryCollaboratorError)
    (h : oracle (buildPrompt preamble question L) = Except.error e) :
    (summaryRequestFlow oracle preamble question L).2 = Except.error e ∧
    (summaryRequestFlow oracle preamble question L).1 = L ∧
    snapshot (summaryRequestFlow oracle preamble question L).1 none = L := by
  simp [summaryRequestFlow, h, snapshot]

/-- C6 (witness): scenario 3 of the specification: an always-failing
collaborator raising a connectivity error; the flow surfaces the error
and the one-observation ledger stays intact and queryable. -/
theorem advisory_failure_surfaced_witness :
    failingOracle (buildPrompt "Summarize the hazards." "Is the rig safe"
        [obsTorqueDrift]) = Except.error ⟨"connection refused"⟩ ∧
    ((summaryRequestFlow failingOracle "Summarize the hazards."
        "Is the rig safe" [obsTorqueDrift]).2
          = Except.error ⟨"connection refused"⟩ ∧
     (summaryRequestFlow failingOracle "Summarize the hazards."
        "Is the rig safe" [obsTorqueDrift]).1 = [obsTorqueDrift] ∧
     snapshot (summaryRequestFlow failingOracle "Summarize the hazards."
        "Is the rig safe" [obsTorqueDrift]).1 none = [obsTorqueDrift]) :=
  ⟨rfl, advisory_failure_surfaced failingOracle "Summarize the hazards."
      "Is the rig safe" [obsTorqueDrift] ⟨"connection refused"⟩ rfl⟩

lemma wearRaw_mono (inc : Fin 60 → ℚ) (hpos : ∀ i, 0 ≤ inc i)
    {i j : Fin 60} (hij : i ≤ j) : wearRaw inc i ≤ wearRaw inc j := by
  apply Finset.sum_le_sum_of_subset_of_nonneg
  · exact Finset.Iic_subset_Iic.mpr hij
  · intro k _ _
    exact hpos k

lemma wearRaw_pos (inc : Fin 60 → ℚ) (hpos : ∀ i, 0 < inc i)
    (i : Fin 60) : 0 < wearRaw inc i := by
  apply Finset.sum_pos
  · intro k _
    exact hpos k
  · exact ⟨i, Finset.mem_Iic.mpr le_rfl⟩

lemma maxWear_eq_wearRaw_last (inc : Fin 60 → ℚ) (hpos : ∀ i, 0 ≤ inc i) :
    maxWear inc = wearRaw inc ⟨59, by omega⟩ := by
  apply le_antisymm
  · apply Finset.sup'_le
    intro i _
    apply wearRaw_mono inc hpos
    have h59 : i.val ≤ 59 := by
      have := i.isLt
      omega
    exact Fin.le_def.mpr h59
  · exact Finset.le_sup' (wearRaw inc) (Finset.mem_univ _)

lemma wearRaw_le_maxWear (inc : Fin 60 → ℚ) (i : Fin 60) :
    wearRaw inc i ≤ maxWear inc :=
  Finset.le_sup' (wearRaw inc) (Finset.mem_univ i)

lemma maxWear_pos (inc : Fin 60 → ℚ) (hpos : ∀ i, 0 < inc i) :
    0 < maxWear inc := by
  rw [maxWear_eq_wearRaw_last inc (fun i => (hpos i).le)]
  exact wearRaw_pos inc hpos _

/-- C10: for increments drawn from the interval 0.5 to 1.5, the
normalization divisor max(wear) of simulate_bit_wear is strictly
positive (no division by zero), the returned Bit Wear percentage series
is non-decreasing, every value lies in the half-open interval from 0
exclusive to 100 inclusive, and the final entry equals 100. -/
theorem bit_wear_normalization_safe (inc : Fin 60 → ℚ)
    (h : ∀ i, mkRat 1 2 ≤ inc i ∧ inc i < mkRat 3 2) :
    0 < maxWear inc ∧
    (∀ i j : Fin 60, i ≤ j → bitWearPct inc i ≤ bitWearPct inc j) ∧
    (∀ i : Fin 60, 0 < bitWearPct inc i ∧ bitWearPct inc i ≤ 100) ∧
    bitWearPct inc ⟨59, by omega⟩ = 100 := by
  have hhalf : (0 : ℚ) < mkRat 1 2 := by decide
  have hposlt : ∀ i, 0 < inc i := fun i => lt_of_lt_of_le hhalf (h i).1
  have hpos : ∀ i, 0 ≤ inc i := fun i => (hposlt i).le
  have hmax : 0 < maxWear inc := maxWear_pos inc hposlt
  refine ⟨hmax, ?_, ?_, ?_⟩
  · intro i j hij
    unfold bitWearPct
    have hle := wearRaw_mono inc hpos hij
    have hdiv : wearRaw inc i / maxWear inc ≤ wearRaw inc j / maxWear inc :=
      (div_le_div_iff_of_pos_right hmax).mpr hle
    exact mul_le_mul_of_nonneg_right hdiv (by norm_num)
  · intro i
    constructor
    · unfold bitWearPct
      apply mul_pos
      · exact div_pos (wearRaw_pos inc hposlt i) hmax
      · norm_num
    · unfold bitWearPct
      have h1 : wearRaw inc i / maxWear inc ≤ 1 :=
        (div_le_one hmax).mpr (wearRaw_le_maxWear inc i)
      calc wearRaw inc i / maxWear inc * 100 ≤ 1 * 100 :=
            mul_le_mul_of_nonneg_right h1 (by norm_num)
        _ = 100 := one_mul 100
  · unfold bitWearPct
    rw [maxWear_eq_wearRaw_last inc hpos]
    rw [div_self (wearRaw_pos inc hposlt _).ne']
    norm_num

/-- C10 (witness): the bit-wear bounds evaluated on the constant
increment sequence of ones, which lies in the interval 0.5 to 1.5. -/
theorem bit_wear_normalization_safe_witness :
    (∀ i : Fin 60, mkRat 1 2 ≤ constIncrements i ∧ constIncrements i < mkRat 3 2) ∧
    (0 < maxWear constIncrements ∧
     (∀ i j : Fin 60, i ≤ j →
        bitWearPct constIncrements i ≤ bitWearPct constIncrements j) ∧
     (∀ i : Fin 60, 0 < bitWearPct constIncrements i ∧
        bitWearPct constIncrements i ≤ 100) ∧
     bitWearPct constIncrements ⟨59, by omega⟩ = 100) :=
  ⟨by decide, bit_wear_normalization_safe constIncrements (by decide)⟩
